import Mathlib

/-!
Verification of the real-time coordination gateway in src/server/index.js:
the WebSocket message handler, the two backend forwarding calls, the
readyState-guarded result dispatch, the clients map, and the connection id
generation. All definitions are shallow embeddings of that file.
-/

namespace FaceGateway

/-- JSON values as produced by JSON.parse and handled by the gateway.
    Numbers are modelled as integers: the gateway never inspects numeric
    payload content, it only forwards values verbatim. -/
inductive JVal where
  | jnull : JVal
  | jbool : Bool → JVal
  | jnum : Int → JVal
  | jstr : String → JVal
  | jarr : List JVal → JVal
  | jobj : List (String × JVal) → JVal

/-- First-match lookup in an association list. A parsed JS object has
    unique keys, so first match coincides with the JS property read. -/
def lookupEntry {α : Type} : List (String × α) → String → Option α
  | [], _ => none
  | (k0, v0) :: rest, k => if k0 = k then some v0 else lookupEntry rest k

/-- JS property access data.k as the handler performs it: an object yields
    its field or undefined (none); a non-object yields undefined, except
    null, whose property access throws - the throw is caught by the
    surrounding try block and the message is dropped, which is the same
    observable outcome as none, so both are modelled as none. -/
def jget : JVal → String → Option JVal
  | .jobj fields, k => lookupEntry fields k
  | _, _ => none

/-- A backend HTTP call issued by the message handler: axios.post to the
    recognition service carrying data.image, or to the RAG service carrying
    data.query (src/server/index.js lines 30 and 45). The carried field is
    taken from the parsed message without any validation. -/
inductive BackendCall where
  | recognize : Option JVal → BackendCall
  | chatQuery : Option JVal → BackendCall

/-- Timeout configured on the recognition call: axios option timeout 10000
    (src/server/index.js line 30). -/
def recognitionTimeoutMs : Nat := 10000

/-- Timeout configured on the chat call: axios option timeout 30000
    (src/server/index.js line 45). -/
def chatTimeoutMs : Nat := 30000

/-- The strict comparison data.type === t as the handler performs it:
    true exactly when the type field exists and is the string t. -/
def typeIs (data : JVal) (t : String) : Bool :=
  match jget data "type" with
  | some (.jstr s) => s = t
  | _ => false

/-- The synchronous part of the ws message handler (src/server/index.js
    lines 22-62). The argument none models a JSON.parse throw, caught by
    the try block. On a parsed value the handler dispatches on data.type
    and issues the matching backend call; any other input falls through
    with no action. No branch sends a message synchronously and no branch
    closes the connection. -/
def handleMessage : Option JVal → Option BackendCall
  | none => none
  | some data =>
    if typeIs data "frame" then
      some (.recognize (jget data "image"))
    else if typeIs data "chat" then
      some (.chatQuery (jget data "query"))
    else
      none

/-- Observable state of one client socket: the ws readyState (1 = OPEN,
    3 = CLOSED) and the backend calls issued on its behalf that have not
    yet resolved, oldest first. The source keeps no pending-request
    bookkeeping: the in-flight list is exactly the unresolved axios
    promises whose callbacks close over this socket. -/
structure ConnState where
  readyState : Nat
  inflight : List BackendCall

/-- Processing one inbound ws message: the handler may issue a backend
    call, which joins the unresolved set. The returned list holds the
    messages sent to the client during this step; it is always empty,
    because every ws.send in the handler lives inside an axios callback. -/
def processMessage (s : ConnState) (parsed : Option JVal) : ConnState × List JVal :=
  match handleMessage parsed with
  | none => (s, [])
  | some c => ({ s with inflight := s.inflight ++ [c] }, [])

/-- Resolution of one backend call: success carries resp.data, failure
    carries err.message (axios rejection: timeout, connection refused,
    non-2xx status). -/
inductive CallOutcome where
  | success : JVal → CallOutcome
  | failure : String → CallOutcome

/-- The then-callback of the recognition call (src/server/index.js lines
    31-36): sends the wrapped payload only when ws.readyState === 1. -/
def onRecognizeSuccess (respData : JVal) (readyState : Nat) : Option JVal :=
  if readyState = 1 then
    some (.jobj [("type", .jstr "recognition"), ("payload", respData)])
  else
    none

/-- The catch-callback of the recognition call (src/server/index.js lines
    36-41): sends err.message verbatim, only when ws.readyState === 1. -/
def onRecognizeError (errMessage : String) (readyState : Nat) : Option JVal :=
  if readyState = 1 then
    some (.jobj [("type", .jstr "recognition"), ("error", .jstr errMessage)])
  else
    none

/-- The then-callback of the chat call (src/server/index.js lines 46-51). -/
def onChatSuccess (respData : JVal) (readyState : Nat) : Option JVal :=
  if readyState = 1 then
    some (.jobj [("type", .jstr "chat_response"), ("payload", respData)])
  else
    none

/-- The catch-callback of the chat call (src/server/index.js lines 51-57). -/
def onChatError (errMessage : String) (readyState : Nat) : Option JVal :=
  if readyState = 1 then
    some (.jobj [("type", .jstr "chat_response"), ("error", .jstr errMessage)])
  else
    none

/-- Messages sent to the client when one backend call resolves. The four
    send sites here are the only outbound WebSocket writes the gateway
    performs. -/
def emitFor (c : BackendCall) (o : CallOutcome) (readyState : Nat) : List JVal :=
  match c, o with
  | .recognize _, .success body => (onRecognizeSuccess body readyState).toList
  | .recognize _, .failure msg => (onRecognizeError msg readyState).toList
  | .chatQuery _, .success body => (onChatSuccess body readyState).toList
  | .chatQuery _, .failure msg => (onChatError msg readyState).toList

/-- Resolution of the idx-th unresolved call of a socket: the call leaves
    the unresolved set and its callback runs, sending through the
    readyState guard. Backends resolve their calls in any order, so idx is
    arbitrary. -/
def completeAt (s : ConnState) (idx : Nat) (o : CallOutcome) : ConnState × List JVal :=
  match s.inflight.get? idx with
  | none => (s, [])
  | some c => ({ s with inflight := s.inflight.eraseIdx idx }, emitFor c o s.readyState)

/-- Connection id generation (src/server/index.js line 18):
    Date.now() + Math.random().toString(36).slice(2). In JS, adding a
    string to a number concatenates the decimal rendering of the timestamp
    with the salt string. -/
def mkConnectionId (now : Nat) (salt : String) : String :=
  toString now ++ salt

/-- Map.set semantics of the in-memory clients map: replace the value of
    an existing key in place, otherwise append the new entry. -/
def setEntry {α : Type} : List (String × α) → String → α → List (String × α)
  | [], k, v => [(k, v)]
  | (k0, v0) :: rest, k, v =>
    if k0 = k then (k, v) :: rest else (k0, v0) :: setEntry rest k v

/-- Map.delete semantics of the in-memory clients map. Keys are unique, so
    removing the first match removes the entry. -/
def delEntry {α : Type} : List (String × α) → String → List (String × α)
  | [], _ => []
  | (k0, v0) :: rest, k =>
    if k0 = k then rest else (k0, v0) :: delEntry rest k

/-- Whole-gateway state: the per-socket states, owned by the sockets
    themselves, and the in-memory clients map (generated id to socket
    handle), which src/server/index.js writes in the connection handler
    (clients.set) and the close handler (clients.delete) and reads
    nowhere. -/
structure World where
  sockets : List (String × ConnState)
  clients : List (String × String)

/-- Events driving the gateway: a new connection (with the clock value and
    random salt used for its id), an inbound ws message, the resolution of
    one in-flight backend call, the ws close handler firing for an id, and
    the environment transitioning a socket to CLOSED. -/
inductive GEvent where
  | connection : String → Nat → String → GEvent
  | message : String → Option JVal → GEvent
  | complete : String → Nat → CallOutcome → GEvent
  | close : String → GEvent
  | socketClosed : String → GEvent

/-- One gateway step: the handlers of src/server/index.js applied to one
    event, returning the new state and the messages written to clients,
    tagged with the socket they were written to. The connection and close
    handlers touch only the clients map; message processing and call
    resolution touch only the socket itself - result delivery goes through
    the closed-over ws handle, never through the clients map. -/
def step (w : World) (e : GEvent) : World × List (String × JVal) :=
  match e with
  | .connection handle now salt =>
    ({ w with clients := setEntry w.clients (mkConnectionId now salt) handle }, [])
  | .message handle parsed =>
    match lookupEntry w.sockets handle with
    | none => (w, [])
    | some s =>
      let r := processMessage s parsed
      ({ w with sockets := setEntry w.sockets handle r.1 }, r.2.map (fun m => (handle, m)))
  | .complete handle idx o =>
    match lookupEntry w.sockets handle with
    | none => (w, [])
    | some s =>
      let r := completeAt s idx o
      ({ w with sockets := setEntry w.sockets handle r.1 }, r.2.map (fun m => (handle, m)))
  | .close id =>
    ({ w with clients := delEntry w.clients id }, [])
  | .socketClosed handle =>
    match lookupEntry w.sockets handle with
    | none => (w, [])
    | some s =>
      ({ w with sockets := setEntry w.sockets handle { s with readyState := 3 } }, [])

/-- A run of the gateway over a list of events, collecting every message
    written to any client in order. -/
def run (w : World) (es : List GEvent) : World × List (String × JVal) :=
  match es with
  | [] => (w, [])
  | e :: rest =>
    let r := step w e
    let r2 := run r.1 rest
    (r2.1, r.2 ++ r2.2)

/-- Shape of a well-formed outbound gateway message: a type field equal to
    recognition or chat_response, and exactly one of payload and error. -/
def wellFormedOutbound (m : JVal) : Prop :=
  (jget m "type" = some (.jstr "recognition") ∨ jget m "type" = some (.jstr "chat_response"))
  ∧ (((jget m "payload").isSome ∧ (jget m "error").isNone)
     ∨ ((jget m "payload").isNone ∧ (jget m "error").isSome))

/-- Claim C2 (confirmed): for every connection and every pending backend
    call, if the connection is no longer OPEN when the call resolves, the
    readyState guard on every dispatch suppresses the write, so no result
    message is sent on that connection. -/
theorem no_send_after_teardown (s : ConnState) (idx : Nat) (o : CallOutcome)
    (h : s.readyState ≠ 1) : (completeAt s idx o).2 = [] := by
  unfold completeAt
  cases hg : s.inflight.get? idx with
  | none => rfl
  | some c =>
    cases c <;> cases o <;>
      simp [emitFor, onRecognizeSuccess, onRecognizeError, onChatSuccess,
        onChatError, h]

/-- Witness for C2: a CLOSED socket (readyState 3) with one pending
    recognition call receives nothing when the call resolves. -/
theorem no_send_after_teardown_witness :
    (ConnState.mk 3 [.recognize none]).readyState ≠ 1
    ∧ (completeAt (ConnState.mk 3 [.recognize none]) 0 (.success .jnull)).2 = [] :=
  ⟨by decide,
   no_send_after_teardown (ConnState.mk 3 [.recognize none]) 0 (.success .jnull)
     (by decide)⟩

/-- Claim C5 (confirmed): a successful backend response body is wrapped
    verbatim and unmodified: a frame request yields exactly the message
    with type recognition and payload the backend body, a chat request
    yields exactly the message with type chat_response and payload the
    backend body, whatever the body is. -/
theorem success_payload_verbatim (img q : Option JVal) (body : JVal) :
    emitFor (.recognize img) (.success body) 1
      = [.jobj [("type", .jstr "recognition"), ("payload", body)]]
    ∧ emitFor (.chatQuery q) (.success body) 1
      = [.jobj [("type", .jstr "chat_response"), ("payload", body)]] :=
  ⟨rfl, rfl⟩

/-- Claim C10 (confirmed): every outbound WebSocket message the gateway
    produces has a type field equal to recognition or chat_response and
    carries exactly one of payload and error. -/
theorem outbound_shape (c : BackendCall) (o : CallOutcome) (rs : Nat) (m : JVal)
    (hm : m ∈ emitFor c o rs) : wellFormedOutbound m := by
  by_cases h : rs = 1
  · subst h
    cases c <;> cases o <;>
      simp [emitFor, onRecognizeSuccess, onRecognizeError, onChatSuccess,
        onChatError] at hm <;>
      subst hm <;>
      first
        | exact ⟨Or.inl rfl, Or.inl ⟨rfl, rfl⟩⟩
        | exact ⟨Or.inl rfl, Or.inr ⟨rfl, rfl⟩⟩
        | exact ⟨Or.inr rfl, Or.inl ⟨rfl, rfl⟩⟩
        | exact ⟨Or.inr rfl, Or.inr ⟨rfl, rfl⟩⟩
  · cases c <;> cases o <;>
      simp [emitFor, onRecognizeSuccess, onRecognizeError, onChatSuccess,
        onChatError, h] at hm

/-- Witness for C10 on a concrete delivered message. -/
theorem outbound_shape_witness :
    (JVal.jobj [("type", .jstr "recognition"), ("payload", .jnull)])
      ∈ emitFor (.recognize none) (.success .jnull) 1
    ∧ wellFormedOutbound (.jobj [("type", .jstr "recognition"), ("payload", .jnull)]) :=
  ⟨by simp [emitFor, onRecognizeSuccess],
   outbound_shape (.recognize none) (.success .jnull) 1 _
     (by simp [emitFor, onRecognizeSuccess])⟩

/-- Helper for C9: one gateway step reads only the socket states, never the
    clients map, so two states agreeing on sockets produce the same step
    outputs and the same next socket states. -/
theorem step_ignores_clients (e : GEvent) (w1 w2 : World)
    (h : w1.sockets = w2.sockets) :
    (step w1 e).1.sockets = (step w2 e).1.sockets
    ∧ (step w1 e).2 = (step w2 e).2 := by
  cases e with
  | connection handle now salt => exact ⟨h, rfl⟩
  | close id => exact ⟨h, rfl⟩
  | message handle parsed =>
    simp only [step]
    rw [h]
    cases lookupEntry w2.sockets handle <;> simp [h]
  | complete handle idx o =>
    simp only [step]
    rw [h]
    cases lookupEntry w2.sockets handle <;> simp [h]
  | socketClosed handle =>
    simp only [step]
    rw [h]
    cases lookupEntry w2.sockets handle <;> simp [h]

/-- Claim C9 (confirmed): result delivery never reads the clients map.
    Every outbound write goes through the socket handle captured at
    connection time, so two runs over the same events whose states differ
    only in the contents of the clients map deliver exactly the same
    messages to each client. -/
theorem run_ignores_clients (es : List GEvent) (w1 w2 : World)
    (h : w1.sockets = w2.sockets) :
    (run w1 es).1.sockets = (run w2 es).1.sockets
    ∧ (run w1 es).2 = (run w2 es).2 := by
  induction es generalizing w1 w2 with
  | nil => exact ⟨h, rfl⟩
  | cons e rest ih =>
    have hs := step_ignores_clients e w1 w2 h
    have hr := ih (step w1 e).1 (step w2 e).1 hs.1
    simp [run, hs.2, hr.1, hr.2]

/-- Witness for C9: an empty clients map and a populated one deliver the
    same messages when a pending recognition call resolves. -/
theorem run_ignores_clients_witness :
    (World.mk [("h1", ConnState.mk 1 [.recognize none])] []).sockets
      = (World.mk [("h1", ConnState.mk 1 [.recognize none])] [("id7", "h1")]).sockets
    ∧ (run (World.mk [("h1", ConnState.mk 1 [.recognize none])] [])
        [.complete "h1" 0 (.success .jnull)]).2
      = (run (World.mk [("h1", ConnState.mk 1 [.recognize none])] [("id7", "h1")])
        [.complete "h1" 0 (.success .jnull)]).2 :=
  ⟨rfl,
   (run_ignores_clients [.complete "h1" 0 (.success .jnull)]
     (World.mk [("h1", ConnState.mk 1 [.recognize none])] [])
     (World.mk [("h1", ConnState.mk 1 [.recognize none])] [("id7", "h1")]) rfl).2⟩

/-- Claim C1 (refuted as stated): with a recognition call already pending,
    a second frame message produces no synchronous reply at all - in
    particular no Busy failure - and is itself forwarded, leaving two
    recognition calls in flight. -/
theorem busy_rejection_counterexample :
    (processMessage (ConnState.mk 1 [])
        (some (.jobj [("type", .jstr "frame"), ("image", .jstr "imgA")]))).1.inflight
      = [.recognize (some (.jstr "imgA"))]
    ∧ (processMessage (ConnState.mk 1 [.recognize (some (.jstr "imgA"))])
        (some (.jobj [("type", .jstr "frame"), ("image", .jstr "imgB")]))).2 = []
    ∧ (processMessage (ConnState.mk 1 [.recognize (some (.jstr "imgA"))])
        (some (.jobj [("type", .jstr "frame"), ("image", .jstr "imgB")]))).1.inflight
      = [.recognize (some (.jstr "imgA")), .recognize (some (.jstr "imgB"))] :=
  ⟨rfl, rfl, rfl⟩

/-- Claim C1 (amended): the gateway applies no admission control. For any
    socket state - whatever calls are already pending - processing a
    message sends nothing synchronously (so never a Busy failure), leaves
    the socket state untouched, and simply appends the issued call, if
    any, after the calls already in flight. -/
theorem no_admission_control (s : ConnState) (parsed : Option JVal) :
    (processMessage s parsed).2 = []
    ∧ (processMessage s parsed).1.readyState = s.readyState
    ∧ (processMessage s parsed).1.inflight
        = s.inflight ++ (handleMessage parsed).toList := by
  unfold processMessage
  cases handleMessage parsed <;> simp

/-- Claim C3 (refuted as stated): a frame message missing its required
    image field is not dropped: the handler forwards it to the backend
    with the field absent, and when that call resolves while the socket is
    OPEN an outbound message is produced for it. -/
theorem malformed_dropped_counterexample :
    handleMessage (some (.jobj [("type", .jstr "frame")])) = some (.recognize none)
    ∧ emitFor (.recognize none) (.failure "connect ECONNREFUSED 127.0.0.1:8001") 1
      = [.jobj [("type", .jstr "recognition"),
          ("error", .jstr "connect ECONNREFUSED 127.0.0.1:8001")]] :=
  ⟨rfl, rfl⟩

/-- Claim C3 (amended): the handler never closes the connection and never
    sends synchronously, invalid JSON is dropped with no backend call, and
    every message without a recognized type discriminator is dropped with
    no state change; only a message carrying type frame or chat proceeds,
    even when its required field is missing. -/
theorem malformed_handling (s : ConnState) (parsed : Option JVal) :
    ((processMessage s parsed).1.readyState = s.readyState
      ∧ (processMessage s parsed).2 = [])
    ∧ handleMessage none = none
    ∧ ∀ v : JVal, typeIs v "frame" = true ∨ typeIs v "chat" = true
        ∨ processMessage s (some v) = (s, []) := by
  refine ⟨⟨?_, ?_⟩, rfl, ?_⟩
  · unfold processMessage; cases handleMessage parsed <;> rfl
  · unfold processMessage; cases handleMessage parsed <;> rfl
  · intro v
    by_cases h1 : typeIs v "frame" = true
    · exact Or.inl h1
    · by_cases h2 : typeIs v "chat" = true
      · exact Or.inr (Or.inl h2)
      · exact Or.inr (Or.inr (by simp [processMessage, handleMessage, h1, h2]))

/-- Claim C4 (refuted as stated): a frame message with empty image data and
    a chat message with empty query text are both forwarded to the
    backends; neither is dropped and no DecodeError exists in the code. -/
theorem content_validation_counterexample :
    handleMessage (some (.jobj [("type", .jstr "frame"), ("image", .jstr "")]))
      = some (.recognize (some (.jstr "")))
    ∧ handleMessage (some (.jobj [("type", .jstr "chat"), ("query", .jstr "")]))
      = some (.chatQuery (some (.jstr ""))) :=
  ⟨rfl, rfl⟩

/-- Claim C4 (amended): decoding applies no content validation. Any message
    whose type field is the string frame is forwarded with whatever image
    value it carries - empty or absent included - and any message whose
    type field is the string chat is forwarded with whatever query value
    it carries. -/
theorem no_content_validation (v w : JVal)
    (hf : jget v "type" = some (.jstr "frame"))
    (hc : jget w "type" = some (.jstr "chat")) :
    handleMessage (some v) = some (.recognize (jget v "image"))
    ∧ handleMessage (some w) = some (.chatQuery (jget w "query")) := by
  constructor <;> simp [handleMessage, typeIs, hf, hc]

/-- Witness for amended C4 on concrete frame and chat messages with empty
    content. -/
theorem no_content_validation_witness :
    jget (JVal.jobj [("type", .jstr "frame"), ("image", .jstr "")]) "type"
      = some (.jstr "frame")
    ∧ jget (JVal.jobj [("type", .jstr "chat"), ("query", .jstr "")]) "type"
      = some (.jstr "chat")
    ∧ (handleMessage (some (.jobj [("type", .jstr "frame"), ("image", .jstr "")]))
        = some (.recognize (jget (JVal.jobj [("type", .jstr "frame"), ("image", .jstr "")]) "image"))
      ∧ handleMessage (some (.jobj [("type", .jstr "chat"), ("query", .jstr "")]))
        = some (.chatQuery (jget (JVal.jobj [("type", .jstr "chat"), ("query", .jstr "")]) "query"))) :=
  ⟨rfl, rfl,
   no_content_validation
     (.jobj [("type", .jstr "frame"), ("image", .jstr "")])
     (.jobj [("type", .jstr "chat"), ("query", .jstr "")]) rfl rfl⟩

/-- Claim C6 (refuted as stated): when the chat deadline elapses, the catch
    callback sends the error message of the rejected call verbatim - for an
    axios timeout that is the string timeout of 30000ms exceeded - and not
    the literal string Timeout. -/
theorem timeout_literal_counterexample :
    onChatError "timeout of 30000ms exceeded" 1
      = some (.jobj [("type", .jstr "chat_response"),
          ("error", .jstr "timeout of 30000ms exceeded")])
    ∧ onChatError "timeout of 30000ms exceeded" 1
      ≠ some (.jobj [("type", .jstr "chat_response"), ("error", .jstr "Timeout")]) := by
  refine ⟨rfl, ?_⟩
  intro h
  simp [onChatError] at h

/-- Claim C6 (amended): deadlines of 10000 ms for recognition and 30000 ms
    for chat are configured on the backend calls, and a failure - deadline
    expiry included - is reported to an open socket with the underlying
    error message verbatim in the error field, whatever that message is. -/
theorem deadline_and_timeout_message (msg : String) :
    recognitionTimeoutMs = 10000
    ∧ chatTimeoutMs = 30000
    ∧ onRecognizeError msg 1
      = some (.jobj [("type", .jstr "recognition"), ("error", .jstr msg)])
    ∧ onChatError msg 1
      = some (.jobj [("type", .jstr "chat_response"), ("error", .jstr msg)]) :=
  ⟨rfl, rfl, rfl, rfl⟩

/-- Recognition lane membership of a backend call. -/
def isRecognition : BackendCall → Bool
  | .recognize _ => true
  | .chatQuery _ => false

/-- Claim C7 (refuted as stated): submitting two frame messages back to
    back leaves two recognition calls in flight at once on the same
    connection, so in-flight work of one kind is not bounded by one. -/
theorem fifo_counterexample :
    ((processMessage
        (processMessage (ConnState.mk 1 [])
          (some (.jobj [("type", .jstr "frame"), ("image", .jstr "f1")]))).1
        (some (.jobj [("type", .jstr "frame"), ("image", .jstr "f2")]))).1.inflight.countP
      (fun c => isRecognition c)) = 2 :=
  rfl

/-- Claim C7 (amended): several requests of one kind can be in flight
    concurrently and results are delivered in backend completion order:
    after submitting frame f1 and then frame f2, the backend resolving the
    second call first makes its result arrive first, so delivery within a
    kind is not FIFO. -/
theorem completion_order_delivery :
    ((processMessage
        (processMessage (ConnState.mk 1 [])
          (some (.jobj [("type", .jstr "frame"), ("image", .jstr "f1")]))).1
        (some (.jobj [("type", .jstr "frame"), ("image", .jstr "f2")]))).1.inflight
      = [.recognize (some (.jstr "f1")), .recognize (some (.jstr "f2"))])
    ∧ (completeAt
        (ConnState.mk 1 [.recognize (some (.jstr "f1")), .recognize (some (.jstr "f2"))])
        1 (.success (.jstr "resultOf2"))).2
      = [.jobj [("type", .jstr "recognition"), ("payload", .jstr "resultOf2")]]
    ∧ (completeAt
        (completeAt
          (ConnState.mk 1 [.recognize (some (.jstr "f1")), .recognize (some (.jstr "f2"))])
          1 (.success (.jstr "resultOf2"))).1
        0 (.success (.jstr "resultOf1"))).2
      = [.jobj [("type", .jstr "recognition"), ("payload", .jstr "resultOf1")]] :=
  ⟨rfl, rfl, rfl⟩

/-- Claim C8 (refuted as stated): id generation is not collision-free for
    all clock and salt values: two registrations with distinct clock
    values and distinct salts can still receive the same connection id,
    because only the concatenated string matters. -/
theorem id_collision_counterexample :
    ((1 : Nat), "23abc") ≠ ((12 : Nat), "3abc")
    ∧ mkConnectionId 1 "23abc" = mkConnectionId 12 "3abc" :=
  ⟨by decide, by decide⟩

/-- Claim C8 (amended): ids coincide exactly when the decimal clock
    rendering concatenated with the salt coincides; in particular two
    registrations in the same millisecond with distinct salts do receive
    distinct ids. -/
theorem id_distinct_same_clock (t : Nat) (s1 s2 : String) (h : s1 ≠ s2) :
    mkConnectionId t s1 ≠ mkConnectionId t s2 := by
  intro he
  apply h
  unfold mkConnectionId at he
  have hd : (toString t ++ s1).data = (toString t ++ s2).data :=
    congrArg String.data he
  rw [String.data_append, String.data_append] at hd
  exact String.ext (List.append_cancel_left hd)

/-- Witness for amended C8: same clock value, distinct salts, distinct
    ids. -/
theorem id_distinct_same_clock_witness :
    "a" ≠ "b" ∧ mkConnectionId 5 "a" ≠ mkConnectionId 5 "b" :=
  ⟨by decide, id_distinct_same_clock 5 "a" "b" (by decide)⟩

end FaceGateway
